import Mathlib

/-!
Verification of the todo-api repository (FastAPI + SQLAlchemy 2.0 + SQLite).

The embedding models:
* `app/models.py` — the `todos` table: each row carries id, title (column
  declared `String(200)`, NOT NULL), description (`Text`, nullable),
  completed (bool, default false), created_at / updated_at (server defaults
  `func.now()`, `onupdate=func.now()` on updated_at).
* `app/schemas.py` — the pydantic models `TodoCreate`, `TodoUpdate`,
  `TodoResponse`.
* `app/main.py` — the five request handlers `list_todos`, `get_todo`,
  `create_todo`, `update_todo`, `delete_todo`.

Modelling conventions:
* Timestamps are a logical clock (`Nat`): the database state carries a
  clock that advances on every write-operation; `func.now()` returns the
  current clock value.  Sub-second timestamp granularity of the real
  SQLite `CURRENT_TIMESTAMP` is abstracted away.
* The `title` column is stored as `Option String`: SQLAlchemy happily
  assigns `None` onto the attribute (`TodoUpdate.title` admits `null`),
  and the NOT NULL constraint is only enforced by SQLite when the flush
  actually emits the `INSERT`/`UPDATE` statement.  A flush that violates
  it raises `IntegrityError`, the transaction rolls back (the session is
  closed by `get_db`), and FastAPI surfaces an unhandled 500.
* SQLite does not enforce the declared `String(200)` length; no layer of
  the code checks the title length, so inserts store titles of any length.
* SQLAlchemy's unit of work emits an `UPDATE` only for attributes with a
  net change: at flush time each set attribute's current value is compared
  against its previously committed value with the column type's
  `compare_values` (default `==`); re-assigning an equal value — or
  running the setattr loop zero times, as with the empty patch — yields no
  net change, so no `UPDATE` is emitted and `onupdate=func.now()` (which
  refreshes `updated_at`) never fires.
-/

/-- Row of the `todos` table (`app/models.py`).  `title` is kept as
`Option String` because the ORM attribute can transiently hold `None`;
the NOT NULL constraint is enforced at flush time. -/
structure Todo where
  id : Nat
  title : Option String
  description : Option String
  completed : Bool
  created_at : Nat
  updated_at : Nat
deriving Repr, DecidableEq

/-- Database state: the table rows in insertion (rowid) order, the next
autoincrement primary key, and the logical clock backing `func.now()`. -/
structure DB where
  rows : List Todo
  nextId : Nat
  clock : Nat
deriving Repr, DecidableEq

/-- Fresh database right after `Base.metadata.create_all`. -/
def initDB : DB := { rows := [], nextId := 1, clock := 0 }

/-- Pydantic `TodoCreate` (`app/schemas.py`): `title: str`,
`description: str | None = None`, `completed: bool = False`. -/
structure TodoCreate where
  title : String
  description : Option String
  completed : Bool
deriving Repr, DecidableEq

/-- Pydantic `TodoUpdate` (`app/schemas.py`): every field optional with
default `None`.  The outer `Option` records whether the field was
explicitly present in the request body (pydantic "set" tracking, used by
`model_dump(exclude_unset=True)`); the inner value is the field's value,
where `none` is an explicit JSON `null`. -/
structure TodoUpdate where
  title : Option (Option String)
  description : Option (Option String)
  completed : Option (Option Bool)
deriving Repr, DecidableEq

/-- Raw JSON body of a POST /todos request, before pydantic validation.
`title = none` means the key is absent (or null — both fail `title: str`
the same way for the claims below we only need absence).  `extra` holds
any additional keys; pydantic's default config ignores unknown fields. -/
structure RawCreate where
  title : Option String
  description : Option String
  completed : Option Bool
  extra : List (String × String)
deriving Repr, DecidableEq

/-- Raw JSON body of a PUT /todos/id request: the three known fields with
pydantic set-tracking, plus ignored unknown keys. -/
structure RawUpdate where
  title : Option (Option String)
  description : Option (Option String)
  completed : Option (Option Bool)
  extra : List (String × String)
deriving Repr, DecidableEq

/-- Errors raised inside a handler.  `notFound` is the explicit
`HTTPException(404, detail)`; `integrityErr` models SQLite rejecting a
flush that violates a NOT NULL constraint (surfaced as a 500). -/
inductive ApiError where
  | notFound (detail : String)
  | integrityErr
deriving Repr, DecidableEq

/-- HTTP response as produced by the FastAPI layer. -/
inductive Response where
  | todoRes (status : Nat) (body : Todo)
  | listRes (status : Nat) (body : List Todo)
  | noContent
  | errorRes (status : Nat) (detail : String)
deriving Repr, DecidableEq

/-- Status code of a response (`noContent` is 204 No Content, empty body). -/
def Response.status : Response → Nat
  | .todoRes s _ => s
  | .listRes s _ => s
  | .noContent => 204
  | .errorRes s _ => s

/-- Pydantic validation of a create body: `title: str` is required (missing
it is a 422 `ValidationError` raised before the handler runs); omitted
`description` defaults to `None`, omitted `completed` defaults to `False`.
No length constraint is declared on `title`.  Unknown keys are ignored
(pydantic default `extra="ignore"`). -/
def parseTodoCreate (raw : RawCreate) : Except String TodoCreate :=
  match raw.title with
  | none => Except.error "Field required"
  | some t => Except.ok { title := t, description := raw.description, completed := raw.completed.getD false }

/-- Pydantic validation of an update body: every field optional, so parsing
always succeeds; unknown keys are ignored. -/
def parseTodoUpdate (raw : RawUpdate) : TodoUpdate :=
  { title := raw.title, description := raw.description, completed := raw.completed }

/-- Sorted insert used to model `ORDER BY created_at DESC`. -/
def insertByCreatedAtDesc (r : Todo) : List Todo → List Todo
  | [] => [r]
  | x :: xs =>
    if r.created_at ≤ x.created_at then x :: insertByCreatedAtDesc r xs
    else r :: x :: xs

/-- Rows sorted by `created_at` descending (`Todo.created_at.desc()`). -/
def orderByCreatedAtDesc (rows : List Todo) : List Todo :=
  rows.foldr insertByCreatedAtDesc []

/-- Handler `list_todos` (`app/main.py`): `select(Todo)` ordered by
`created_at` descending, then `.offset(skip).limit(limit)`.  Read-only. -/
def listTodos (db : DB) (skip limit : Nat) : List Todo :=
  ((orderByCreatedAtDesc db.rows).drop skip).take limit

/-- Handler `get_todo`: look up by primary key, 404 naming the id when no
row matches. -/
def getTodo (db : DB) (todo_id : Nat) : Except ApiError Todo :=
  match db.rows.find? (fun r => r.id == todo_id) with
  | none => Except.error (ApiError.notFound ("Todo with id " ++ (toString todo_id ++ " not found")))
  | some t => Except.ok t

/-- Handler `create_todo` after validation: build the ORM object from the
validated `TodoCreate`, `add` + `commit` (storage assigns `id` and the
`func.now()` server defaults for both timestamps), `refresh`, return it.
`title` comes from a pydantic `str`, so it is never `None` and the flush
cannot hit the NOT NULL constraint; SQLite does not enforce the declared
`String(200)` length, so no length check happens either. -/
def createTodo (db : DB) (data : TodoCreate) : Todo × DB :=
  let t : Todo :=
    { id := db.nextId
      title := some data.title
      description := data.description
      completed := data.completed
      created_at := db.clock
      updated_at := db.clock }
  (t, { rows := db.rows ++ [t], nextId := db.nextId + 1, clock := db.clock + 1 })

/-- Does the flush after `update_todo`'s setattr loop emit an UPDATE
statement?  At flush time SQLAlchemy's unit of work compares each set
attribute's current value against its previously committed value with the
column type's `compare_values` (default `==`) and includes only
attributes with a net value change; when no attribute changed, no UPDATE
is emitted at all.  So a field present in the patch counts exactly when
its value differs from the stored one. -/
def emitsUpdate (patch : TodoUpdate) (t : Todo) : Bool :=
  (match patch.title with
   | some v => v != t.title
   | none => false) ||
  (match patch.description with
   | some v => v != t.description
   | none => false) ||
  (match patch.completed with
   | some v => v != some t.completed
   | none => false)

/-- Effect of the setattr loop on one column: a field present in
`model_dump(exclude_unset=True)` overwrites the attribute, an absent field
leaves it alone. -/
def applyField {α : Type} (fld : Option (Option α)) (cur : Option α) : Option α :=
  match fld with
  | some v => v
  | none => cur

/-- Handler `update_todo`: look up the row (404 `"Todo not found"` if
absent), `model_dump(exclude_unset=True)`, setattr each present field onto
the ORM object, commit, refresh, return the row.  The commit emits an
UPDATE only if some attribute actually changed (see `emitsUpdate`); when
it does, `onupdate=func.now()` refreshes `updated_at`, and SQLite rejects
the statement with `IntegrityError` (rolling back, store unchanged) if
`title` or `completed` would become NULL. -/
def updateTodo (db : DB) (todo_id : Nat) (patch : TodoUpdate) :
    Except ApiError Todo × DB :=
  match db.rows.find? (fun r => r.id == todo_id) with
  | none => (Except.error (ApiError.notFound "Todo not found"), db)
  | some t =>
    if emitsUpdate patch t then
      match applyField patch.title t.title, applyField patch.completed (some t.completed) with
      | some nt, some c =>
        let t' : Todo :=
          { t with
            title := some nt
            description := applyField patch.description t.description
            completed := c
            updated_at := db.clock }
        (Except.ok t',
         { rows := db.rows.map (fun r => if r.id == todo_id then t' else r)
           nextId := db.nextId
           clock := db.clock + 1 })
      | _, _ => (Except.error ApiError.integrityErr, db)
    else
      (Except.ok t, { db with clock := db.clock + 1 })

/-- Handler `delete_todo`: look up the row (404 `"Todo not found"` if
absent), `session.delete` + commit, return 204 with no body. -/
def deleteTodo (db : DB) (todo_id : Nat) : Except ApiError Unit × DB :=
  match db.rows.find? (fun r => r.id == todo_id) with
  | none => (Except.error (ApiError.notFound "Todo not found"), db)
  | some _ =>
    (Except.ok (),
     { rows := db.rows.filter (fun r => !(r.id == todo_id))
       nextId := db.nextId
       clock := db.clock + 1 })

/-- GET /todos endpoint: 200 with the page of rows. -/
def listEndpoint (db : DB) (skip limit : Nat) : Response × DB :=
  (Response.listRes 200 (listTodos db skip limit), db)

/-- GET /todos/id endpoint: 200 with the row, or the 404 mapping of the
`HTTPException`. -/
def getEndpoint (db : DB) (todo_id : Nat) : Response × DB :=
  match getTodo db todo_id with
  | Except.ok t => (Response.todoRes 200 t, db)
  | Except.error (ApiError.notFound d) => (Response.errorRes 404 d, db)
  | Except.error ApiError.integrityErr => (Response.errorRes 500 "Internal Server Error", db)

/-- POST /todos endpoint: pydantic validation runs before the handler; a
missing `title` is a 422 with no handler invocation (zero writes);
otherwise the handler inserts and returns 201 with the refreshed row. -/
def createEndpoint (db : DB) (raw : RawCreate) : Response × DB :=
  match parseTodoCreate raw with
  | Except.error d => (Response.errorRes 422 d, db)
  | Except.ok data =>
    let (t, db') := createTodo db data
    (Response.todoRes 201 t, db')

/-- PUT /todos/id endpoint: validation always succeeds, then the handler
runs; 404 and IntegrityError map to error responses. -/
def updateEndpoint (db : DB) (todo_id : Nat) (raw : RawUpdate) : Response × DB :=
  match updateTodo db todo_id (parseTodoUpdate raw) with
  | (Except.ok t, db') => (Response.todoRes 200 t, db')
  | (Except.error (ApiError.notFound d), db') => (Response.errorRes 404 d, db')
  | (Except.error ApiError.integrityErr, db') => (Response.errorRes 500 "Internal Server Error", db')

/-- DELETE /todos/id endpoint: 204 No Content on success, 404 otherwise. -/
def deleteEndpoint (db : DB) (todo_id : Nat) : Response × DB :=
  match deleteTodo db todo_id with
  | (Except.ok _, db') => (Response.noContent, db')
  | (Except.error (ApiError.notFound d), db') => (Response.errorRes 404 d, db')
  | (Except.error ApiError.integrityErr, db') => (Response.errorRes 500 "Internal Server Error", db')

/-- One API operation, for invariant statements quantifying over all five. -/
inductive Op where
  | list (skip limit : Nat)
  | get (todo_id : Nat)
  | create (raw : RawCreate)
  | update (todo_id : Nat) (raw : RawUpdate)
  | delete (todo_id : Nat)
deriving Repr, DecidableEq

/-- Dispatch an operation against the database. -/
def applyOp (db : DB) : Op → Response × DB
  | Op.list skip limit => listEndpoint db skip limit
  | Op.get i => getEndpoint db i
  | Op.create raw => createEndpoint db raw
  | Op.update i raw => updateEndpoint db i raw
  | Op.delete i => deleteEndpoint db i

/-- Well-formedness of a database state: primary keys below the
autoincrement counter and duplicate-free, NOT NULL titles, and timestamps
consistent with the logical clock. -/
def WF (db : DB) : Prop :=
  (∀ t ∈ db.rows, t.id < db.nextId ∧ t.title ≠ none ∧
     t.created_at ≤ t.updated_at ∧ t.updated_at < db.clock) ∧
  1 ≤ db.nextId ∧ (db.rows.map Todo.id).Nodup

instance (db : DB) : Decidable (WF db) := by
  unfold WF; infer_instance

/-- Does `sub` occur at the start of `l`? -/
def subAt : List Char → List Char → Bool
  | [], _ => true
  | _ :: _, [] => false
  | a :: as, b :: bs => a == b && subAt as bs

/-- Does `sub` occur anywhere in `l`? -/
def occursIn (sub : List Char) : List Char → Bool
  | [] => sub.isEmpty
  | c :: cs => subAt sub (c :: cs) || occursIn sub cs

/-- Does the error detail string mention the decimal rendering of the id? -/
def mentionsId (detail : String) (todo_id : Nat) : Bool :=
  occursIn (toString todo_id).toList detail.toList

/-- Body of a 200/201 response carrying a single todo, if any. -/
def Response.bodyTodo : Response → Option Todo
  | .todoRes _ t => some t
  | _ => none

/-- Executable NOT NULL invariant on the `title` column. -/
def titleInv (db : DB) : Bool :=
  db.rows.all (fun t => !(t.title == none))

/-- Sample validated create payload. -/
def sampleCreate : TodoCreate :=
  { title := "buy milk", description := some "2 liters", completed := false }

/-- Database holding exactly one todo, produced by one create on the fresh
database. -/
def db1 : DB := (createTodo initDB sampleCreate).2

/-- The row stored in `db1` (id 1, timestamps 0). -/
def row1 : Todo := (createTodo initDB sampleCreate).1

/-- Patch setting only `completed` to `true`. -/
def patchCompletedTrue : TodoUpdate :=
  { title := none, description := none, completed := some (some true) }

/-- Patch with no field present: the JSON body was the empty object. -/
def emptyPatch : TodoUpdate := { title := none, description := none, completed := none }

/-- Raw update body with no field present and no extra keys. -/
def emptyRawUpdate : RawUpdate :=
  { title := none, description := none, completed := none, extra := [] }

/-- Result row of updating `db1`'s row with `patchCompletedTrue`. -/
def rowAfterC1 : Todo := { row1 with completed := true, updated_at := 1 }

/-- Database state after that update. -/
def dbAfterC1 : DB := { rows := [rowAfterC1], nextId := 2, clock := 2 }

/-- Title of 201 characters, exceeding the declared `String(200)` length. -/
def longTitle : String := String.mk (List.replicate 201 'x')

/-- Create request body carrying the 201-character title. -/
def rawLong : RawCreate :=
  { title := some longTitle, description := none, completed := none, extra := [] }

theorem find?_map_update (l : List Todo) (todo_id : Nat) (t' : Todo)
    (hl : (l.find? (fun r => r.id == todo_id)).isSome)
    (ht' : (t'.id == todo_id) = true) :
    (l.map (fun r => if r.id == todo_id then t' else r)).find?
      (fun r => r.id == todo_id) = some t' := by
  induction l with
  | nil => simp [List.find?] at hl
  | cons x xs ih =>
    simp only [List.map_cons]
    by_cases hx : (x.id == todo_id) = true
    · rw [if_pos hx]
      simp [List.find?, ht']
    · have hx' : (x.id == todo_id) = false := by simpa using hx
      rw [if_neg hx]
      simp only [List.find?, hx']
      apply ih
      simpa [List.find?, hx'] using hl

theorem find?_filter_ne_none (l : List Todo) (todo_id : Nat) :
    (l.filter (fun r => !(r.id == todo_id))).find?
      (fun r => r.id == todo_id) = none := by
  rw [List.find?_eq_none]
  intro x hx
  have hmem := List.mem_filter.mp hx
  simpa using hmem.2

theorem subAt_append (sub rest : List Char) : subAt sub (sub ++ rest) = true := by
  induction sub with
  | nil => rfl
  | cons a as ih => simp [subAt, ih]

theorem occursIn_nil (l : List Char) : occursIn [] l = true := by
  cases l with
  | nil => rfl
  | cons c cs => simp [occursIn, subAt]

theorem occursIn_append (sub pre post : List Char) :
    occursIn sub (pre ++ (sub ++ post)) = true := by
  induction pre with
  | nil =>
    cases sub with
    | nil => exact occursIn_nil ([] ++ post)
    | cons a as =>
      have h1 : subAt (a :: as) (a :: (as ++ post)) = true := subAt_append (a :: as) post
      simp [occursIn, h1]
  | cons c cs ih => simp [occursIn, ih]

/-- C9: a create body missing the required `title` (such as the empty
object) fails pydantic validation with HTTP 422 and leaves the database
state — in particular its rows — unchanged. -/
theorem c9_missing_title_rejected (db : DB) (raw : RawCreate)
    (h : raw.title = none) :
    createEndpoint db raw = (Response.errorRes 422 "Field required", db) := by
  simp [createEndpoint, parseTodoCreate, h]

/-- Create request body that is the empty JSON object. -/
def rawEmptyCreate : RawCreate :=
  { title := none, description := none, completed := none, extra := [] }

theorem c9_witness :
    createEndpoint initDB rawEmptyCreate = (Response.errorRes 422 "Field required", initDB) :=
  c9_missing_title_rejected initDB rawEmptyCreate rfl

/-- C10: extra JSON fields beyond title/description/completed are ignored
by pydantic (default config): a create or update request with extra keys
is not rejected and behaves identically to the same request without them. -/
theorem c10_extra_fields_ignored (db : DB) (rawC : RawCreate) (todo_id : Nat) (rawU : RawUpdate) :
    createEndpoint db rawC =
      createEndpoint db { title := rawC.title, description := rawC.description,
                          completed := rawC.completed, extra := [] } ∧
    updateEndpoint db todo_id rawU =
      updateEndpoint db todo_id { title := rawU.title, description := rawU.description,
                                  completed := rawU.completed, extra := [] } :=
  ⟨rfl, rfl⟩

/-- C6: creating todos A, B, C in that order into the empty store and then
listing with skip 0, limit 20 returns exactly [C, B, A] — ordered by
`created_at` descending, most recent first. -/
theorem c6_list_order (a b c : TodoCreate) :
    listEndpoint (createTodo (createTodo (createTodo initDB a).2 b).2 c).2 0 20 =
      (Response.listRes 200
        [(createTodo (createTodo (createTodo initDB a).2 b).2 c).1,
         (createTodo (createTodo initDB a).2 b).1,
         (createTodo initDB a).1],
       (createTodo (createTodo (createTodo initDB a).2 b).2 c).2) :=
  rfl

/-- C5 counterexample: for a missing id, `update` and `delete` do return
404, but with the fixed detail string `"Todo not found"`, which does not
mention the missing id (here 5) — contradicting the claim that the error
message names the missing id for all three operations. -/
theorem c5_counterexample :
    (updateEndpoint initDB 5 emptyRawUpdate).1 = Response.errorRes 404 "Todo not found" ∧
    (deleteEndpoint initDB 5).1 = Response.errorRes 404 "Todo not found" ∧
    mentionsId "Todo not found" 5 = false := by
  decide

/-- C5 amended: for a missing id all three operations fail with HTTP 404;
`get`'s detail names the missing id (`"Todo with id {id} not found"`),
while `update` and `delete` reply with the constant detail
`"Todo not found"`, which does not name the id. -/
theorem c5_not_found_responses (db : DB) (todo_id : Nat) (raw : RawUpdate)
    (h : db.rows.find? (fun r => r.id == todo_id) = none) :
    (getEndpoint db todo_id).1 =
      Response.errorRes 404 ("Todo with id " ++ (toString todo_id ++ " not found")) ∧
    mentionsId ("Todo with id " ++ (toString todo_id ++ " not found")) todo_id = true ∧
    (updateEndpoint db todo_id raw).1 = Response.errorRes 404 "Todo not found" ∧
    (deleteEndpoint db todo_id).1 = Response.errorRes 404 "Todo not found" := by
  refine ⟨?_, ?_, ?_, ?_⟩
  · simp [getEndpoint, getTodo, h]
  · unfold mentionsId
    have hsplit : ("Todo with id " ++ (toString todo_id ++ " not found")).toList
        = "Todo with id ".toList ++ ((toString todo_id).toList ++ " not found".toList) := rfl
    rw [hsplit]
    exact occursIn_append _ _ _
  · simp [updateEndpoint, updateTodo, h]
  · simp [deleteEndpoint, deleteTodo, h]

theorem c5_witness :
    (getEndpoint initDB 5).1 =
      Response.errorRes 404 ("Todo with id " ++ (toString 5 ++ " not found")) ∧
    mentionsId ("Todo with id " ++ (toString 5 ++ " not found")) 5 = true ∧
    (updateEndpoint initDB 5 emptyRawUpdate).1 = Response.errorRes 404 "Todo not found" ∧
    (deleteEndpoint initDB 5).1 = Response.errorRes 404 "Todo not found" :=
  c5_not_found_responses initDB 5 emptyRawUpdate rfl

set_option maxRecDepth 4000 in
/-- C3 counterexample: a create whose title has 201 characters is not
rejected: the response is 201 Created and one row is inserted, where the
claim demands a 422 validation failure with no write. -/
theorem c3_counterexample :
    200 < longTitle.length ∧
    (createEndpoint initDB rawLong).1.status = 201 ∧
    (createEndpoint initDB rawLong).2.rows.length = 1 := by
  decide

/-- C3 amended: no layer enforces the declared `String(200)` length —
pydantic's `TodoCreate.title` is a bare `str` and SQLite ignores declared
VARCHAR lengths — so a create whose title exceeds 200 characters passes
validation, succeeds with HTTP 201, and inserts the full title. -/
theorem c3_long_title_accepted (db : DB) (raw : RawCreate) (s : String)
    (ht : raw.title = some s) (hlen : 200 < s.length) :
    (createEndpoint db raw).1.status = 201 ∧
    ((createEndpoint db raw).1.bodyTodo).map Todo.title = some (some s) ∧
    (createEndpoint db raw).2.rows.length = db.rows.length + 1 := by
  simp [createEndpoint, parseTodoCreate, ht, createTodo, Response.status, Response.bodyTodo]

set_option maxRecDepth 4000 in
theorem c3_witness :
    (createEndpoint initDB rawLong).1.status = 201 ∧
    ((createEndpoint initDB rawLong).1.bodyTodo).map Todo.title = some (some longTitle) ∧
    (createEndpoint initDB rawLong).2.rows.length = initDB.rows.length + 1 :=
  c3_long_title_accepted initDB rawLong longTitle rfl (by decide)

theorem getEndpoint_state (db : DB) (todo_id : Nat) :
    (getEndpoint db todo_id).2 = db := by
  unfold getEndpoint
  rcases h : getTodo db todo_id with e | t
  · cases e <;> rfl
  · rfl

theorem updateEndpoint_state (db : DB) (todo_id : Nat) (raw : RawUpdate) :
    (updateEndpoint db todo_id raw).2 = (updateTodo db todo_id (parseTodoUpdate raw)).2 := by
  unfold updateEndpoint
  rcases h : updateTodo db todo_id (parseTodoUpdate raw) with ⟨res, db'⟩
  cases res with
  | ok t => rfl
  | error e => cases e <;> rfl

theorem deleteEndpoint_state (db : DB) (todo_id : Nat) :
    (deleteEndpoint db todo_id).2 = (deleteTodo db todo_id).2 := by
  unfold deleteEndpoint
  rcases h : deleteTodo db todo_id with ⟨res, db'⟩
  cases res with
  | ok t => rfl
  | error e => cases e <;> rfl

theorem deleteEndpoint_err (db : DB) (todo_id : Nat) (d : String) (db2x : DB)
    (h : deleteTodo db todo_id = (Except.error (ApiError.notFound d), db2x)) :
    deleteEndpoint db todo_id = (Response.errorRes 404 d, db2x) := by
  unfold deleteEndpoint
  rw [h]

/-- C7: deleting an existing id succeeds — 204 No Content, empty body, row
removed from storage — and an immediately repeated delete of the same id
fails with 404 `"Todo not found"`: deletion is not idempotent. -/
theorem c7_delete_not_idempotent (db : DB) (todo_id : Nat) (t0 : Todo)
    (h0 : db.rows.find? (fun r => r.id == todo_id) = some t0) :
    (deleteEndpoint db todo_id).1 = Response.noContent ∧
    (deleteEndpoint db todo_id).1.status = 204 ∧
    (deleteEndpoint db todo_id).2.rows.find? (fun r => r.id == todo_id) = none ∧
    (deleteEndpoint (deleteEndpoint db todo_id).2 todo_id).1 =
      Response.errorRes 404 "Todo not found" := by
  have h1 : deleteTodo db todo_id =
      (Except.ok (), { rows := db.rows.filter (fun r => !(r.id == todo_id)),
                       nextId := db.nextId, clock := db.clock + 1 }) := by
    simp [deleteTodo, h0]
  have h2 : (deleteEndpoint db todo_id).2.rows =
      db.rows.filter (fun r => !(r.id == todo_id)) := by
    rw [deleteEndpoint_state, h1]
  refine ⟨?_, ?_, ?_, ?_⟩
  · simp [deleteEndpoint, h1]
  · simp [deleteEndpoint, h1, Response.status]
  · rw [h2]; exact find?_filter_ne_none db.rows todo_id
  · have h3 : deleteTodo (deleteEndpoint db todo_id).2 todo_id =
        (Except.error (ApiError.notFound "Todo not found"), (deleteEndpoint db todo_id).2) := by
      unfold deleteTodo
      rw [h2, find?_filter_ne_none db.rows todo_id]
    rw [deleteEndpoint_err _ _ _ _ h3]

theorem c7_witness :
    (deleteEndpoint db1 1).1 = Response.noContent ∧
    (deleteEndpoint db1 1).1.status = 204 ∧
    (deleteEndpoint db1 1).2.rows.find? (fun r => r.id == 1) = none ∧
    (deleteEndpoint (deleteEndpoint db1 1).2 1).1 = Response.errorRes 404 "Todo not found" :=
  c7_delete_not_idempotent db1 1 row1 (by decide)

/-- C8: a successful create (201 with a returned entity) yields a positive
— hence non-null — storage-assigned id, equal created_at and updated_at,
and a completed flag that is the request value when supplied and false
when the field was omitted (`raw.completed.getD false`). -/
theorem c8_create_result (db : DB) (raw : RawCreate) (t : Todo) (db' : DB)
    (hwf : WF db)
    (h : createEndpoint db raw = (Response.todoRes 201 t, db')) :
    0 < t.id ∧ t.created_at = t.updated_at ∧ t.completed = raw.completed.getD false := by
  cases hraw : raw.title with
  | none => simp [createEndpoint, parseTodoCreate, hraw] at h
  | some s =>
    simp only [createEndpoint, parseTodoCreate, hraw, createTodo, Prod.mk.injEq,
      Response.todoRes.injEq] at h
    obtain ⟨⟨-, ht⟩, -⟩ := h
    subst ht
    exact ⟨hwf.2.1, rfl, rfl⟩

/-- Valid create body with `completed` omitted. -/
def rawSimple : RawCreate :=
  { title := some "walk dog", description := none, completed := none, extra := [] }

/-- Row produced by creating `rawSimple` against `db1`. -/
def row2 : Todo :=
  { id := 2, title := some "walk dog", description := none, completed := false,
    created_at := 1, updated_at := 1 }

/-- Database state after that second create. -/
def db2 : DB := { rows := [row1, row2], nextId := 3, clock := 2 }

theorem c8_witness :
    0 < row2.id ∧ row2.created_at = row2.updated_at ∧
    row2.completed = rawSimple.completed.getD false :=
  c8_create_result db1 rawSimple row2 db2 (by decide) (by decide)

theorem titleInv_iff (db : DB) :
    titleInv db = true ↔ ∀ t ∈ db.rows, t.title ≠ none := by
  simp [titleInv]

theorem updateTodo_title_inv (db : DB) (todo_id : Nat) (patch : TodoUpdate)
    (hInv : ∀ t ∈ db.rows, t.title ≠ none) :
    ∀ t ∈ (updateTodo db todo_id patch).2.rows, t.title ≠ none := by
  unfold updateTodo
  split
  · exact hInv
  · split
    · split
      · dsimp only
        intro r hr
        rcases List.mem_map.mp hr with ⟨s, hs, hfs⟩
        by_cases hsid : (s.id == todo_id) = true
        · rw [if_pos hsid] at hfs
          rw [← hfs]
          simp
        · rw [if_neg hsid] at hfs
          rw [← hfs]
          exact hInv s hs
      · exact hInv
    · exact hInv

/-- C4: the non-null-title invariant is preserved by every one of the five
operations: if every persisted row has a non-null title then, after
list, get, create, update (including a patch explicitly setting title to
null, which fails the NOT NULL constraint at flush time and rolls back)
or delete, every persisted row still has a non-null title. -/
theorem c4_title_invariant (db : DB) (op : Op)
    (hInv : titleInv db = true) :
    titleInv (applyOp db op).2 = true := by
  rw [titleInv_iff] at hInv ⊢
  cases op with
  | list skip limit => exact hInv
  | get i =>
    rw [show (applyOp db (Op.get i)).2 = (getEndpoint db i).2 from rfl,
        getEndpoint_state]
    exact hInv
  | create raw =>
    show ∀ t ∈ (createEndpoint db raw).2.rows, t.title ≠ none
    cases hraw : raw.title with
    | none =>
      simp only [createEndpoint, parseTodoCreate, hraw]
      exact hInv
    | some s =>
      simp only [createEndpoint, parseTodoCreate, hraw, createTodo]
      intro t ht
      rcases List.mem_append.mp ht with h | h
      · exact hInv t h
      · rw [List.mem_singleton.mp h]
        simp
  | update i raw =>
    rw [show (applyOp db (Op.update i raw)).2 = (updateEndpoint db i raw).2 from rfl,
        updateEndpoint_state]
    exact updateTodo_title_inv db i (parseTodoUpdate raw) hInv
  | delete i =>
    rw [show (applyOp db (Op.delete i)).2 = (deleteEndpoint db i).2 from rfl,
        deleteEndpoint_state]
    unfold deleteTodo
    split
    · exact hInv
    · intro r hr
      exact hInv r (List.mem_filter.mp hr).1

/-- Update request body explicitly setting `title` to JSON null. -/
def rawNullTitle : RawUpdate :=
  { title := some none, description := none, completed := none, extra := [] }

theorem c4_witness :
    titleInv (applyOp db1 (Op.update 1 rawNullTitle)).2 = true :=
  c4_title_invariant db1 (Op.update 1 rawNullTitle) (by decide)

/-- C1: a successful update overwrites exactly the fields explicitly
present in the patch and no others: each present field of the returned
row equals the patch value (`applyField`), each absent field is identical
to its prior stored value, `id` and `created_at` are untouched, the
stored row agrees with the returned one, and rows with other ids are
untouched (the state's rows are either the pointwise replacement of the
matched row or — when no UPDATE was emitted — exactly the old rows). -/
theorem c1_partial_update_frame (db : DB) (todo_id : Nat) (patch : TodoUpdate)
    (t0 t' : Todo) (db' : DB)
    (h0 : db.rows.find? (fun r => r.id == todo_id) = some t0)
    (hok : updateTodo db todo_id patch = (Except.ok t', db')) :
    t'.title = applyField patch.title t0.title ∧
    t'.description = applyField patch.description t0.description ∧
    some t'.completed = applyField patch.completed (some t0.completed) ∧
    t'.id = t0.id ∧ t'.created_at = t0.created_at ∧
    db'.rows.find? (fun r => r.id == todo_id) = some t' ∧
    (db'.rows = db.rows.map (fun r => if r.id == todo_id then t' else r) ∨
     db'.rows = db.rows) := by
  obtain ⟨pt, pd, pc⟩ := patch
  have hid : (t0.id == todo_id) = true := by
    have h1 := List.find?_some h0
    simpa using h1
  simp only [updateTodo, h0] at hok
  by_cases he : emitsUpdate ⟨pt, pd, pc⟩ t0 = true
  · rw [if_pos he] at hok
    rcases hT : applyField pt t0.title with _ | nt <;> rw [hT] at hok <;>
      rcases hC : applyField pc (some t0.completed) with _ | c <;>
        rw [hC] at hok <;> dsimp only at hok
    · simp at hok
    · simp at hok
    · simp at hok
    · simp only [Prod.mk.injEq, Except.ok.injEq] at hok
      obtain ⟨ht', hdb'⟩ := hok
      subst ht' hdb'
      refine ⟨rfl, rfl, rfl, rfl, rfl, ?_, Or.inl rfl⟩
      apply find?_map_update
      · rw [h0]; rfl
      · exact hid
  · rw [if_neg he] at hok
    simp only [Prod.mk.injEq, Except.ok.injEq] at hok
    obtain ⟨ht', hdb'⟩ := hok
    subst ht' hdb'
    have he' : emitsUpdate ⟨pt, pd, pc⟩ t0 = false := by
      simpa using he
    simp only [emitsUpdate, Bool.or_eq_false_eq_eq_false_and_eq_false] at he'
    obtain ⟨⟨hT, hD⟩, hC⟩ := he'
    refine ⟨?_, ?_, ?_, rfl, rfl, h0, Or.inr rfl⟩
    · rcases pt with _ | v
      · rfl
      · simp at hT
        simp [applyField, hT]
    · rcases pd with _ | v
      · rfl
      · simp at hD
        simp [applyField, hD]
    · rcases pc with _ | v
      · rfl
      · simp at hC
        simp [applyField, hC]

theorem c1_witness :
    rowAfterC1.title = applyField patchCompletedTrue.title row1.title ∧
    rowAfterC1.description = applyField patchCompletedTrue.description row1.description ∧
    some rowAfterC1.completed = applyField patchCompletedTrue.completed (some row1.completed) ∧
    rowAfterC1.id = row1.id ∧ rowAfterC1.created_at = row1.created_at ∧
    dbAfterC1.rows.find? (fun r => r.id == 1) = some rowAfterC1 ∧
    (dbAfterC1.rows = db1.rows.map (fun r => if r.id == 1 then rowAfterC1 else r) ∨
     dbAfterC1.rows = db1.rows) :=
  c1_partial_update_frame db1 1 patchCompletedTrue row1 rowAfterC1 dbAfterC1
    (by decide) rfl

/-- C2 counterexample: updating the single stored todo with the empty
patch succeeds (HTTP 200, `Except.ok`), but the unit of work has no dirty
attribute, emits no UPDATE statement, and `onupdate` never fires: the
returned row is the stored row unchanged — its `updated_at` (0) equals
its previous value instead of being strictly greater. -/
theorem c2_counterexample :
    (updateTodo db1 1 emptyPatch).1 = Except.ok row1 ∧
    (updateTodo db1 1 emptyPatch).2.rows = [row1] ∧
    row1.updated_at = 0 ∧ ¬ row1.updated_at < row1.updated_at :=
  ⟨rfl, rfl, rfl, by decide⟩

/-- C2 amended: a successful update refreshes `updated_at` to the current
time exactly when the flush emits an UPDATE statement, i.e. when some
field explicitly present in the patch differs in value (SQLAlchemy's
`compare_values`, default `==`) from the stored one; the refresh is then
a strict increase since every stored `updated_at` predates the clock.  A
patch with no net change — in particular the empty patch, for which
`emitsUpdate` is always false — emits no UPDATE and leaves `updated_at`
(and the whole row) unchanged. -/
theorem c2_updated_at_refresh (db : DB) (todo_id : Nat) (patch : TodoUpdate)
    (t0 t' : Todo) (db' : DB)
    (hwf : WF db)
    (h0 : db.rows.find? (fun r => r.id == todo_id) = some t0)
    (hok : updateTodo db todo_id patch = (Except.ok t', db')) :
    t'.updated_at = (if emitsUpdate patch t0 then db.clock else t0.updated_at) ∧
    t0.updated_at < db.clock ∧
    emitsUpdate emptyPatch t0 = false := by
  have hmem : t0 ∈ db.rows := List.mem_of_find?_eq_some h0
  have hlt : t0.updated_at < db.clock := ((hwf.1 t0 hmem).2.2).2
  refine ⟨?_, hlt, rfl⟩
  simp only [updateTodo, h0] at hok
  by_cases he : emitsUpdate patch t0 = true
  · rw [if_pos he] at hok
    rw [if_pos he]
    rcases hT : applyField patch.title t0.title with _ | nt <;> rw [hT] at hok <;>
      rcases hC : applyField patch.completed (some t0.completed) with _ | c <;>
        rw [hC] at hok <;> dsimp only at hok
    · simp at hok
    · simp at hok
    · simp at hok
    · simp only [Prod.mk.injEq, Except.ok.injEq] at hok
      obtain ⟨ht', hdb'⟩ := hok
      subst ht' hdb'
      rfl
  · rw [if_neg he] at hok
    rw [if_neg he]
    simp only [Prod.mk.injEq, Except.ok.injEq] at hok
    obtain ⟨ht', hdb'⟩ := hok
    subst ht' hdb'
    rfl

theorem c2_witness :
    rowAfterC1.updated_at =
      (if emitsUpdate patchCompletedTrue row1 then db1.clock else row1.updated_at) ∧
    row1.updated_at < db1.clock ∧
    emitsUpdate emptyPatch row1 = false :=
  c2_updated_at_refresh db1 1 patchCompletedTrue row1 rowAfterC1 dbAfterC1
    (by decide) (by decide) rfl
